import Mathlib

/-!
Shallow embedding of the Flask application `app.py` of the kidney-disease
classification service: the request-validation and response-normalization
pipeline around an external image classifier.

Python strings are embedded as `List Char`; JSON-serializable Python values
as `PyVal`; external capabilities (base64 decoding to bytes, PIL image
structure verification, the staging write `decodeImage`, the classifier's
`predict`, and `os.system`) are passed as explicit function/result
parameters returning `Except`, mirroring code that may raise.  Handlers are
total Lean functions from request data to an HTTP status plus a JSON
envelope; the `/predict` handler additionally reports how many times it
invoked validation, staging and inference, so that "never invoked" claims
are statable.
-/

/-- Embedding of the JSON-serializable Python values that flow through the
handlers (classifier results, sample predictions, envelope `data`). -/
inductive PyVal where
  | pyNone : PyVal
  | pyBool : Bool → PyVal
  | pyInt : Int → PyVal
  | pyNum : Rat → PyVal
  | pyStr : String → PyVal
  | pyList : List PyVal → PyVal
  | pyDict : List (String × PyVal) → PyVal

/-- Python truthiness (`bool(v)`) for the embedded values: `None`, `False`,
zero, and empty strings/lists/dicts are falsy. -/
def PyVal.truthy : PyVal → Bool
  | .pyNone => false
  | .pyBool b => b
  | .pyInt n => decide (n ≠ 0)
  | .pyNum q => decide (q ≠ 0)
  | .pyStr s => !s.isEmpty
  | .pyList xs => !xs.isEmpty
  | .pyDict es => !es.isEmpty

/-- `app.py` lines 39-40: `if ',' in base64_string: base64_string =
base64_string.split(',')[1]` — strip a data-URL scheme segment.  When a
comma is present, `split` yields at least two pieces, so index 1 exists. -/
def stripDataUrl (s : List Char) : List Char :=
  if ',' ∈ s then (s.splitOn ',').getD 1 [] else s

/-- `app.py` lines 43-45: `padding = 4 - len(s) % 4; if padding != 4:
s += '=' * padding` — base64 padding correction. -/
def padB64 (s : List Char) : List Char :=
  let padding := 4 - s.length % 4
  if padding ≠ 4 then s ++ List.replicate padding '=' else s

/-- `app.py` lines 35-54, `validate_image`: strip an optional data-URL
prefix, correct the padding, then base64-decode and verify image structure.
The decoder and the PIL `Image.open`/`verify` capability are parameters;
any raised exception is an `Except.error`, and the surrounding
`try/except Exception` turns every failure into `(False, reason)`. -/
def validate_image (b64decode : List Char → Except String (List Nat))
    (imgVerify : List Nat → Except String Unit) (base64_string : List Char) :
    Bool × String :=
  let stripped := stripDataUrl base64_string
  let padded := padB64 stripped
  match b64decode padded with
  | .error e => (false, "Invalid image data: " ++ e)
  | .ok image_data =>
      match imgVerify image_data with
      | .error e => (false, "Invalid image data: " ++ e)
      | .ok _ => (true, "Valid image")

/-- The uniform JSON envelope the handlers build with `jsonify`; absent
keys are `none`. -/
structure Envelope where
  success : Option Bool := none
  message : Option String := none
  error : Option String := none
  timestamp : Option String := none
  model_version : Option String := none
  data : Option PyVal := none
  processed_image : Option PyVal := none
  note : Option String := none

/-- An HTTP response: status code plus JSON envelope body. -/
structure HttpResponse where
  status : Nat
  body : Envelope

/-- The external prediction pipeline handle: `predict()` either returns a
result value or raises.  A fixed outcome models a deterministic classifier
over one request's staged image. -/
structure Classifier where
  predict : Except String PyVal

/-- `app.py` lines 20-33, `ClientApp`: holds the staging filename and the
classifier handle, which is `None` when the pipeline failed to import. -/
structure ClientApp where
  filename : String := "inputImage.jpg"
  classifier : Option Classifier

/-- The parts of a `/predict` (or `/demo-predict`) HTTP request the
handlers inspect: whether the body is JSON, and the value of the `image`
field when present (embedded as a string of characters). -/
structure PredictRequest where
  is_json : Bool
  image : Option (List Char)

/-- Result of running the `/predict` handler on one request: the HTTP
response plus invocation counts for `validate_image`, the staging write
`decodeImage`, and `classifier.predict()`. -/
structure RouteResult where
  resp : HttpResponse
  validateCalls : Nat
  decodeCalls : Nat
  predictCalls : Nat

/-- `app.py` lines 184-190: `data = result[0] if isinstance(result, list)
and len(result) > 0 else result`. -/
def normalizeData (result : PyVal) : PyVal :=
  match result with
  | .pyList xs => if 0 < xs.length then xs.getD 0 .pyNone else .pyList xs
  | r => r

/-- `app.py` lines 192-194: `if isinstance(result, list) and len(result) > 1
and result[1]: response["processed_image"] = result[1]`. -/
def processedOf (result : PyVal) : Option PyVal :=
  match result with
  | .pyList xs =>
      if 1 < xs.length then
        if (xs.getD 1 .pyNone).truthy then some (xs.getD 1 .pyNone) else none
      else none
  | _ => none

/-- `app.py` lines 184-197: the success envelope for `/predict`. -/
def buildPredictEnvelope (result : PyVal) (ts : String) : Envelope :=
  { success := some true
    message := some "Image analyzed successfully"
    timestamp := some ts
    model_version := some "1.0.0"
    data := some (normalizeData result)
    processed_image := processedOf result }

/-- `app.py` lines 132-204, `predictRoute`: model-availability check, JSON
check, `image`-field check, length guard, `validate_image`, staging write
`decodeImage`, `classifier.predict()`, response construction; the outer
`try/except Exception` converts any raise from staging or inference into a
500 envelope. -/
def predictRoute (clApp : ClientApp)
    (b64decode : List Char → Except String (List Nat))
    (imgVerify : List Nat → Except String Unit)
    (decodeImage : List Char → String → Except String Unit)
    (req : PredictRequest) (ts : String) : RouteResult :=
  match clApp.classifier with
  | none =>
      ⟨⟨503, { success := some false
               error := some "Prediction model not available. Please check if the model is properly loaded." }⟩,
       0, 0, 0⟩
  | some classifier =>
      if !req.is_json then
        ⟨⟨400, { success := some false, error := some "Request must be JSON" }⟩, 0, 0, 0⟩
      else
        match req.image with
        | none =>
            ⟨⟨400, { success := some false
                     error := some "No image data provided. Please include \x27image\x27 field in request." }⟩,
             0, 0, 0⟩
        | some image_base64 =>
            if image_base64 = [] ∨ image_base64.length < 100 then
              ⟨⟨400, { success := some false, error := some "Image data too short or empty" }⟩, 0, 0, 0⟩
            else
              let v := validate_image b64decode imgVerify image_base64
              if !v.1 then
                ⟨⟨400, { success := some false, error := some v.2 }⟩, 1, 0, 0⟩
              else
                match decodeImage image_base64 clApp.filename with
                | .error e =>
                    ⟨⟨500, { success := some false
                             error := some ("Internal server error: " ++ e) }⟩, 1, 1, 0⟩
                | .ok _ =>
                    match classifier.predict with
                    | .error e =>
                        ⟨⟨500, { success := some false
                                 error := some ("Internal server error: " ++ e) }⟩, 1, 1, 1⟩
                    | .ok result =>
                        ⟨⟨200, buildPredictEnvelope result ts⟩, 1, 1, 1⟩

/-- `app.py` lines 106-114: the `/health` response body. -/
structure HealthBody where
  status : String
  service : String
  timestamp : String
  model_loaded : Bool

/-- `app.py` lines 106-114, `health_check`. -/
def health_check (clApp : ClientApp) (ts : String) : HealthBody :=
  { status := "healthy"
    service := "DeepVision AI"
    timestamp := ts
    model_loaded := clApp.classifier.isSome }

/-- `app.py` lines 116-130, `trainRoute`: runs `os.system("python main.py")`
(modelled as an `Except`-returning external call whose exit code is
ignored) and reports success; a raise is converted to a 500 envelope. -/
def trainRoute (sysRun : Except String Int) (ts : String) : HttpResponse :=
  match sysRun with
  | .ok _ =>
      ⟨200, { success := some true
              message := some "Training completed successfully!"
              timestamp := some ts }⟩
  | .error e => ⟨500, { success := some false, error := some e }⟩

/-- `app.py` lines 221-229: the fixed demo prediction payload. -/
def sample_predictions : PyVal :=
  .pyDict
    [("predictions", .pyList
        [.pyDict [("class", .pyStr "Healthy"), ("confidence", .pyNum (89 / 100))],
         .pyDict [("class", .pyStr "Diseased"), ("confidence", .pyNum (11 / 100))],
         .pyDict [("class", .pyStr "Unknown"), ("confidence", .pyNum (5 / 100))]]),
     ("top_prediction", .pyStr "Healthy"),
     ("confidence", .pyNum (89 / 100))]

/-- `app.py` lines 207-243, `demo_predict`: `request.get_json()` raises on a
non-JSON body, which the `except` clause turns into a 500 envelope;
otherwise a missing `image` field yields 400 and anything else the fixed
sample payload. -/
def demo_predict (req : PredictRequest) (ts : String) : HttpResponse :=
  if !req.is_json then
    ⟨500, { success := some false, error := some "415 Unsupported Media Type" }⟩
  else
    match req.image with
    | none => ⟨400, { success := some false, error := some "No image data provided" }⟩
    | some _ =>
        ⟨200, { success := some true
                message := some "Demo prediction completed"
                timestamp := some ts
                data := some sample_predictions
                note := some "This is a demo response. Real model is not loaded." }⟩

/-- `app.py` lines 245-250, the 404 handler. -/
def not_found : HttpResponse :=
  ⟨404, { success := some false
          error := some "Endpoint not found. Available endpoints: /, /health, /predict, /demo-predict, /train" }⟩

/-- `app.py` lines 252-257, the 500 handler. -/
def internal_error : HttpResponse :=
  ⟨500, { success := some false, error := some "Internal server error" }⟩

/-- The envelope invariant claimed by the spec: `success=true` carries
`data`; `success=false` carries `error` and never `data`. -/
def envelopeInvariant (e : Envelope) : Prop :=
  (e.success = some true → e.data.isSome = true) ∧
  (e.success = some false → e.error.isSome = true ∧ e.data = none)

/-- Erase the timestamp field, for statements that compare envelopes up to
timestamps. -/
def Envelope.eraseTimestamp (e : Envelope) : Envelope :=
  { e with timestamp := none }

/-- C5: For any `/predict` request whose image payload is empty or shorter
than 100 characters, the handler returns HTTP 400 with `success=false`
before any base64 decode or image validation is attempted (validation,
staging and inference are each invoked zero times). -/
theorem short_payload_rejected_before_decode
    (clApp : ClientApp) (c : Classifier)
    (b64decode : List Char → Except String (List Nat))
    (imgVerify : List Nat → Except String Unit)
    (decodeImage : List Char → String → Except String Unit)
    (req : PredictRequest) (img : List Char) (ts : String)
    (hcl : clApp.classifier = some c) (hj : req.is_json = true)
    (him : req.image = some img) (hlen : img.length < 100) :
    let r := predictRoute clApp b64decode imgVerify decodeImage req ts
    r.resp.status = 400 ∧ r.resp.body.success = some false ∧
    r.validateCalls = 0 ∧ r.decodeCalls = 0 ∧ r.predictCalls = 0 := by
  simp only [predictRoute, hcl, hj, him, Bool.not_true, Bool.false_eq_true,
    if_false]
  rw [if_pos (Or.inr hlen)]
  exact ⟨rfl, rfl, rfl, rfl, rfl⟩

/-- Concrete fixtures reused by witness theorems. -/
def okClassifier : Classifier := ⟨Except.ok (PyVal.pyStr "Healthy")⟩

/-- A client app whose classifier handle is loaded. -/
def loadedApp : ClientApp := ⟨"inputImage.jpg", some okClassifier⟩

/-- A client app whose classifier failed to import (`classifier is None`). -/
def noApp : ClientApp := ⟨"inputImage.jpg", none⟩

/-- A decoder that always succeeds. -/
def decOk : List Char → Except String (List Nat) := fun _ => Except.ok [255, 216]

/-- A decoder that always raises (`binascii.Error`). -/
def decFail : List Char → Except String (List Nat) := fun _ => Except.error "Incorrect padding"

/-- An image verifier that always succeeds. -/
def verOk : List Nat → Except String Unit := fun _ => Except.ok ()

/-- An image verifier that always raises (`PIL.UnidentifiedImageError`). -/
def verFail : List Nat → Except String Unit := fun _ => Except.error "cannot identify image file"

/-- A staging write that always succeeds. -/
def diOk : List Char → String → Except String Unit := fun _ _ => Except.ok ()

/-- A staging write that always raises (`OSError`). -/
def diFail : List Char → String → Except String Unit := fun _ _ => Except.error "No space left on device"

/-- A 100-character payload, long enough to pass the length guard. -/
def longImg : List Char := List.replicate 100 'A'

/-- A 1-character payload, below the length guard. -/
def shortImg : List Char := ['a']

/-- Witness for C5 at a concrete short payload. -/
theorem short_payload_rejected_before_decode_witness :
    shortImg.length < 100 ∧
    (let r := predictRoute loadedApp decOk verOk diOk ⟨true, some shortImg⟩ "t"
     r.resp.status = 400 ∧ r.resp.body.success = some false ∧
     r.validateCalls = 0 ∧ r.decodeCalls = 0 ∧ r.predictCalls = 0) :=
  ⟨by decide,
   short_payload_rejected_before_decode loadedApp okClassifier decOk verOk diOk
     ⟨true, some shortImg⟩ shortImg "t" rfl rfl rfl (by decide)⟩

/-- C1: For every request whose image string fails `validate_image` (base64
decode failure or image-structure verification failure), `/predict` returns
HTTP 400 with `success=false`, and neither the classifier's `predict()` nor
the staging write `decodeImage` is invoked on that request. -/
theorem validate_failure_never_reaches_classifier
    (clApp : ClientApp) (c : Classifier)
    (b64decode : List Char → Except String (List Nat))
    (imgVerify : List Nat → Except String Unit)
    (decodeImage : List Char → String → Except String Unit)
    (req : PredictRequest) (img : List Char) (ts : String)
    (hcl : clApp.classifier = some c) (hj : req.is_json = true)
    (him : req.image = some img)
    (hv : (validate_image b64decode imgVerify img).1 = false) :
    let r := predictRoute clApp b64decode imgVerify decodeImage req ts
    r.resp.status = 400 ∧ r.resp.body.success = some false ∧
    r.decodeCalls = 0 ∧ r.predictCalls = 0 := by
  by_cases hshort : img = [] ∨ img.length < 100
  · simp [predictRoute, hcl, hj, him, hshort]
  · simp [predictRoute, hcl, hj, him, hshort, hv]

/-- Witness for C1 at a concrete failing decoder. -/
theorem validate_failure_never_reaches_classifier_witness :
    (validate_image decFail verOk longImg).1 = false ∧
    (let r := predictRoute loadedApp decFail verOk diOk ⟨true, some longImg⟩ "t"
     r.resp.status = 400 ∧ r.resp.body.success = some false ∧
     r.decodeCalls = 0 ∧ r.predictCalls = 0) :=
  ⟨rfl,
   validate_failure_never_reaches_classifier loadedApp okClassifier decFail verOk diOk
     ⟨true, some longImg⟩ longImg "t" rfl rfl rfl rfl⟩

/-- C6: whenever the classifier handle is unset, every POST to `/predict`
returns HTTP 503 with `success=false`, and `/health` reports
`model_loaded=false`; conversely `/health` reports `model_loaded=true`
exactly when the classifier handle is set. -/
theorem model_unavailable_503_and_health
    (clApp : ClientApp)
    (b64decode : List Char → Except String (List Nat))
    (imgVerify : List Nat → Except String Unit)
    (decodeImage : List Char → String → Except String Unit)
    (req : PredictRequest) (ts : String) :
    (clApp.classifier = none →
      (predictRoute clApp b64decode imgVerify decodeImage req ts).resp.status = 503 ∧
      (predictRoute clApp b64decode imgVerify decodeImage req ts).resp.body.success = some false) ∧
    ((health_check clApp ts).model_loaded = false ↔ clApp.classifier = none) ∧
    ((health_check clApp ts).model_loaded = true ↔ clApp.classifier ≠ none) := by
  refine ⟨fun hc => ?_, ?_, ?_⟩
  · simp [predictRoute, hc]
  · cases hc : clApp.classifier <;> simp [health_check, hc]
  · cases hc : clApp.classifier <;> simp [health_check, hc]

/-- Witness for C6: an unloaded app answers 503 on `/predict` and
`model_loaded=false` on `/health`; a loaded app answers `model_loaded=true`. -/
theorem model_unavailable_503_and_health_witness :
    ((predictRoute noApp decOk verOk diOk ⟨true, some longImg⟩ "t").resp.status = 503 ∧
     (predictRoute noApp decOk verOk diOk ⟨true, some longImg⟩ "t").resp.body.success = some false) ∧
    (health_check noApp "t").model_loaded = false ∧
    (health_check loadedApp "t").model_loaded = true :=
  ⟨(model_unavailable_503_and_health noApp decOk verOk diOk ⟨true, some longImg⟩ "t").1 rfl,
   ((model_unavailable_503_and_health noApp decOk verOk diOk ⟨true, some longImg⟩ "t").2.1).mpr rfl,
   ((model_unavailable_503_and_health loadedApp decOk verOk diOk ⟨true, some longImg⟩ "t").2.2).mpr
     (by simp [loadedApp])⟩

/-- C10: the model-availability check precedes all request-body validation
in `/predict`: with the classifier handle unset, every request body —
non-JSON, missing `image` field, or short payload included — gets HTTP 503;
the 400 responses are reachable only when the classifier is loaded. -/
theorem model_check_precedes_validation
    (clApp : ClientApp)
    (b64decode : List Char → Except String (List Nat))
    (imgVerify : List Nat → Except String Unit)
    (decodeImage : List Char → String → Except String Unit)
    (req : PredictRequest) (ts : String) :
    (clApp.classifier = none →
       (predictRoute clApp b64decode imgVerify decodeImage req ts).resp.status = 503) ∧
    ((predictRoute clApp b64decode imgVerify decodeImage req ts).resp.status = 400 →
       clApp.classifier.isSome = true) := by
  constructor
  · intro hc
    simp [predictRoute, hc]
  · intro h400
    cases hc : clApp.classifier with
    | none => simp [predictRoute, hc] at h400
    | some c => simp

/-- Witness for C10: a non-JSON request still gets 503 when the model is
unloaded, and a 400 response (non-JSON body, loaded model) implies the
handle is set. -/
theorem model_check_precedes_validation_witness :
    (predictRoute noApp decOk verOk diOk ⟨false, none⟩ "t").resp.status = 503 ∧
    loadedApp.classifier.isSome = true :=
  ⟨(model_check_precedes_validation noApp decOk verOk diOk ⟨false, none⟩ "t").1 rfl,
   (model_check_precedes_validation loadedApp decOk verOk diOk ⟨false, none⟩ "t").2 rfl⟩

/-- C9: `validate_image` is total over all input strings: for every input
(data-URL prefixes, multiple commas, undecodable bytes included) it returns
a `(bool, message)` pair — either `(True, "Valid image")` when decode and
image verification both succeed, or `(False, "Invalid image data: " ++
reason)` when any step raises. -/
theorem validate_image_total
    (b64decode : List Char → Except String (List Nat))
    (imgVerify : List Nat → Except String Unit) (s : List Char) :
    (∃ bytes, b64decode (padB64 (stripDataUrl s)) = Except.ok bytes ∧
       imgVerify bytes = Except.ok () ∧
       validate_image b64decode imgVerify s = (true, "Valid image")) ∨
    (∃ reason,
       validate_image b64decode imgVerify s = (false, "Invalid image data: " ++ reason)) := by
  cases hd : b64decode (padB64 (stripDataUrl s)) with
  | error e => exact Or.inr ⟨e, by simp [validate_image, hd]⟩
  | ok bytes =>
    cases hv : imgVerify bytes with
    | error e => exact Or.inr ⟨e, by simp [validate_image, hd, hv]⟩
    | ok u =>
      cases u
      exact Or.inl ⟨bytes, rfl, hv, by simp [validate_image, hd, hv]⟩

/-- Shape lemma: every `/predict` response is either an error envelope
`{success: false, error: msg}` with status 503, 400 or 500, or the success
envelope built from some classifier result with status 200. -/
theorem predictRoute_shape (clApp : ClientApp)
    (b64decode : List Char → Except String (List Nat))
    (imgVerify : List Nat → Except String Unit)
    (decodeImage : List Char → String → Except String Unit)
    (req : PredictRequest) (ts : String) :
    (∃ st msg, (st = 503 ∨ st = 400 ∨ st = 500) ∧
       (predictRoute clApp b64decode imgVerify decodeImage req ts).resp =
         ⟨st, { success := some false, error := some msg }⟩) ∨
    (∃ result, (predictRoute clApp b64decode imgVerify decodeImage req ts).resp =
         ⟨200, buildPredictEnvelope result ts⟩) := by
  cases hc : clApp.classifier with
  | none =>
      exact Or.inl ⟨503,
        "Prediction model not available. Please check if the model is properly loaded.",
        Or.inl rfl, by simp [predictRoute, hc]⟩
  | some c =>
      cases hj : req.is_json with
      | false =>
          exact Or.inl ⟨400, "Request must be JSON", Or.inr (Or.inl rfl),
            by simp [predictRoute, hc, hj]⟩
      | true =>
          cases him : req.image with
          | none =>
              exact Or.inl ⟨400,
                "No image data provided. Please include \x27image\x27 field in request.",
                Or.inr (Or.inl rfl), by simp [predictRoute, hc, hj, him]⟩
          | some img =>
              by_cases hshort : img = [] ∨ img.length < 100
              · exact Or.inl ⟨400, "Image data too short or empty", Or.inr (Or.inl rfl),
                  by simp [predictRoute, hc, hj, him, hshort]⟩
              · cases hv : (validate_image b64decode imgVerify img).1 with
                | false =>
                    exact Or.inl ⟨400, (validate_image b64decode imgVerify img).2,
                      Or.inr (Or.inl rfl),
                      by simp [predictRoute, hc, hj, him, hshort, hv]⟩
                | true =>
                    cases hd : decodeImage img clApp.filename with
                    | error e =>
                        exact Or.inl ⟨500, "Internal server error: " ++ e,
                          Or.inr (Or.inr rfl),
                          by simp [predictRoute, hc, hj, him, hshort, hv, hd]⟩
                    | ok u =>
                        cases hp : c.predict with
                        | error e =>
                            exact Or.inl ⟨500, "Internal server error: " ++ e,
                              Or.inr (Or.inr rfl),
                              by simp [predictRoute, hc, hj, him, hshort, hv, hd, hp]⟩
                        | ok result =>
                            exact Or.inr ⟨result,
                              by simp [predictRoute, hc, hj, him, hshort, hv, hd, hp]⟩

/-- C3, counterexample: the `/train` success envelope has `success=true`
but carries no `data` field, so the claimed invariant fails on the code. -/
theorem train_success_envelope_lacks_data :
    (trainRoute (Except.ok 0) "2024-01-01T00:00:00Z").body.success = some true ∧
    (trainRoute (Except.ok 0) "2024-01-01T00:00:00Z").body.data = none ∧
    ¬ envelopeInvariant (trainRoute (Except.ok 0) "2024-01-01T00:00:00Z").body := by
  refine ⟨rfl, rfl, fun h => ?_⟩
  have h2 := h.1 rfl
  simp [trainRoute] at h2

/-- C3, amended: `success=false` envelopes always carry `error` and never
`data`; `success=true` envelopes of `/predict` and `/demo-predict` always
carry `data`; but the `/train` success envelope carries `message` (and a
timestamp) without any `data` field. -/
theorem envelope_invariant_amended
    (clApp : ClientApp)
    (b64decode : List Char → Except String (List Nat))
    (imgVerify : List Nat → Except String Unit)
    (decodeImage : List Char → String → Except String Unit)
    (req : PredictRequest) (ts : String) (sysRun : Except String Int) :
    envelopeInvariant (predictRoute clApp b64decode imgVerify decodeImage req ts).resp.body ∧
    envelopeInvariant (demo_predict req ts).body ∧
    envelopeInvariant not_found.body ∧
    envelopeInvariant internal_error.body ∧
    ((trainRoute sysRun ts).body.success = some false →
       (trainRoute sysRun ts).body.error.isSome = true ∧
       (trainRoute sysRun ts).body.data = none) ∧
    ((trainRoute sysRun ts).body.success = some true →
       (trainRoute sysRun ts).body.message.isSome = true ∧
       (trainRoute sysRun ts).body.data = none) := by
  refine ⟨?_, ?_, ?_, ?_, ?_, ?_⟩
  · rcases predictRoute_shape clApp b64decode imgVerify decodeImage req ts with
      ⟨st, msg, _, hresp⟩ | ⟨result, hresp⟩
    · rw [hresp]
      simp [envelopeInvariant]
    · rw [hresp]
      simp [envelopeInvariant, buildPredictEnvelope]
  · cases hj : req.is_json with
    | false => simp [demo_predict, hj, envelopeInvariant]
    | true =>
        cases him : req.image with
        | none => simp [demo_predict, hj, him, envelopeInvariant]
        | some img => simp [demo_predict, hj, him, envelopeInvariant]
  · simp [not_found, envelopeInvariant]
  · simp [internal_error, envelopeInvariant]
  · cases sysRun <;> simp [trainRoute]
  · cases sysRun <;> simp [trainRoute]

/-- Witness for the amended C3 at concrete inputs: a successful `/predict`
response carries `data`; a failing `/train` carries `error` and no `data`;
a successful `/train` carries `message` and no `data`. -/
theorem envelope_invariant_amended_witness :
    (predictRoute loadedApp decOk verOk diOk ⟨true, some longImg⟩ "t").resp.body.data.isSome = true ∧
    ((trainRoute (Except.error "boom") "t").body.error.isSome = true ∧
     (trainRoute (Except.error "boom") "t").body.data = none) ∧
    ((trainRoute (Except.ok 0) "t").body.message.isSome = true ∧
     (trainRoute (Except.ok 0) "t").body.data = none) :=
  ⟨((envelope_invariant_amended loadedApp decOk verOk diOk ⟨true, some longImg⟩ "t"
      (Except.ok 0)).1).1 (by decide),
   (envelope_invariant_amended loadedApp decOk verOk diOk ⟨true, some longImg⟩ "t"
      (Except.error "boom")).2.2.2.2.1 rfl,
   (envelope_invariant_amended loadedApp decOk verOk diOk ⟨true, some longImg⟩ "t"
      (Except.ok 0)).2.2.2.2.2 rfl⟩

/-- `result[0] if isinstance(result, list) ... else result`: on a non-list
value the normalization is the identity. -/
theorem normalizeData_not_list (raw : PyVal) (h : ∀ xs, raw ≠ PyVal.pyList xs) :
    normalizeData raw = raw := by
  cases raw <;> first
    | rfl
    | exact absurd rfl (h _)

/-- On a non-list value no `processed_image` is attached. -/
theorem processedOf_not_list (raw : PyVal) (h : ∀ xs, raw ≠ PyVal.pyList xs) :
    processedOf raw = none := by
  cases raw <;> first
    | rfl
    | exact absurd rfl (h _)

/-- C2: on a successful `/predict` run, if the classifier result `raw` is a
non-empty list then `data` is its element 0 and `processed_image` is
present (equal to element 1) exactly when a second, truthy element exists;
if `raw` is not a list then `data` is `raw` itself and `processed_image`
is omitted. -/
theorem predict_response_normalization
    (clApp : ClientApp) (c : Classifier)
    (b64decode : List Char → Except String (List Nat))
    (imgVerify : List Nat → Except String Unit)
    (decodeImage : List Char → String → Except String Unit)
    (req : PredictRequest) (img : List Char) (ts : String) (raw : PyVal)
    (hcl : clApp.classifier = some c) (hp : c.predict = Except.ok raw)
    (hj : req.is_json = true) (him : req.image = some img)
    (hshort : ¬(img = [] ∨ img.length < 100))
    (hv : (validate_image b64decode imgVerify img).1 = true)
    (hd : decodeImage img clApp.filename = Except.ok ()) :
    let r := predictRoute clApp b64decode imgVerify decodeImage req ts
    r.resp.status = 200 ∧ r.resp.body.success = some true ∧
    (∀ xs, raw = PyVal.pyList xs → xs ≠ [] →
       r.resp.body.data = some (xs.getD 0 PyVal.pyNone) ∧
       r.resp.body.processed_image =
         (if 1 < xs.length then
            (if (xs.getD 1 PyVal.pyNone).truthy then some (xs.getD 1 PyVal.pyNone)
             else none)
          else none)) ∧
    ((∀ xs, raw ≠ PyVal.pyList xs) →
       r.resp.body.data = some raw ∧ r.resp.body.processed_image = none) := by
  have hr : predictRoute clApp b64decode imgVerify decodeImage req ts =
      ⟨⟨200, buildPredictEnvelope raw ts⟩, 1, 1, 1⟩ := by
    simp [predictRoute, hcl, hj, him, hshort, hv, hd, hp]
  simp only [hr]
  refine ⟨by trivial, by trivial, ?_, ?_⟩
  · rintro xs rfl hne
    constructor
    · show some (normalizeData (PyVal.pyList xs)) = some (xs.getD 0 PyVal.pyNone)
      rw [normalizeData, if_pos (List.length_pos.mpr hne)]
    · show processedOf (PyVal.pyList xs) = _
      rw [processedOf]
  · intro hnl
    exact ⟨by show some (normalizeData raw) = some raw
              rw [normalizeData_not_list raw hnl],
           by show processedOf raw = none
              rw [processedOf_not_list raw hnl]⟩

/-- Witness for C2: a two-element list result yields `data` = element 0 and
`processed_image` = element 1; a bare string result yields `data` = the
string and no `processed_image`. -/
theorem predict_response_normalization_witness :
    (let r := predictRoute ⟨"inputImage.jpg", some ⟨Except.ok
        (PyVal.pyList [PyVal.pyStr "Tumor", PyVal.pyStr "annotated"])⟩⟩
        decOk verOk diOk ⟨true, some longImg⟩ "t"
     r.resp.body.data = some (PyVal.pyStr "Tumor") ∧
     r.resp.body.processed_image = some (PyVal.pyStr "annotated")) ∧
    (let r2 := predictRoute ⟨"inputImage.jpg", some ⟨Except.ok (PyVal.pyStr "Normal")⟩⟩
        decOk verOk diOk ⟨true, some longImg⟩ "t"
     r2.resp.body.data = some (PyVal.pyStr "Normal") ∧
     r2.resp.body.processed_image = none) := by
  constructor
  · have h := (predict_response_normalization
      ⟨"inputImage.jpg", some ⟨Except.ok
          (PyVal.pyList [PyVal.pyStr "Tumor", PyVal.pyStr "annotated"])⟩⟩
      ⟨Except.ok (PyVal.pyList [PyVal.pyStr "Tumor", PyVal.pyStr "annotated"])⟩
      decOk verOk diOk ⟨true, some longImg⟩ longImg "t"
      (PyVal.pyList [PyVal.pyStr "Tumor", PyVal.pyStr "annotated"])
      rfl rfl rfl rfl (by decide) rfl rfl).2.2.1
      [PyVal.pyStr "Tumor", PyVal.pyStr "annotated"] rfl (by simp)
    simpa [PyVal.truthy] using h
  · have h := (predict_response_normalization
      ⟨"inputImage.jpg", some ⟨Except.ok (PyVal.pyStr "Normal")⟩⟩
      ⟨Except.ok (PyVal.pyStr "Normal")⟩
      decOk verOk diOk ⟨true, some longImg⟩ longImg "t" (PyVal.pyStr "Normal")
      rfl rfl rfl rfl (by decide) rfl rfl).2.2.2
      (fun xs hx => PyVal.noConfusion hx)
    simpa using h

/-- C7: `/predict` on byte-identical request bodies with the same
(deterministic) classifier yields identical statuses, identical `data`,
identical `processed_image`, and bodies identical up to the timestamp
field; only the timestamp may differ between the two calls. -/
theorem predict_idempotent_modulo_timestamp
    (clApp : ClientApp)
    (b64decode : List Char → Except String (List Nat))
    (imgVerify : List Nat → Except String Unit)
    (decodeImage : List Char → String → Except String Unit)
    (req : PredictRequest) (ts1 ts2 : String) :
    let r1 := predictRoute clApp b64decode imgVerify decodeImage req ts1
    let r2 := predictRoute clApp b64decode imgVerify decodeImage req ts2
    r1.resp.status = r2.resp.status ∧
    r1.resp.body.data = r2.resp.body.data ∧
    r1.resp.body.processed_image = r2.resp.body.processed_image ∧
    r1.resp.body.eraseTimestamp = r2.resp.body.eraseTimestamp := by
  cases hc : clApp.classifier with
  | none => simp [predictRoute, hc, Envelope.eraseTimestamp]
  | some c =>
    cases hj : req.is_json with
    | false => simp [predictRoute, hc, hj, Envelope.eraseTimestamp]
    | true =>
      cases him : req.image with
      | none => simp [predictRoute, hc, hj, him, Envelope.eraseTimestamp]
      | some img =>
        by_cases hshort : img = [] ∨ img.length < 100
        · simp [predictRoute, hc, hj, him, hshort, Envelope.eraseTimestamp]
        · cases hv : (validate_image b64decode imgVerify img).1 with
          | false =>
              simp [predictRoute, hc, hj, him, hshort, hv, Envelope.eraseTimestamp]
          | true =>
            cases hd : decodeImage img clApp.filename with
            | error e =>
                simp [predictRoute, hc, hj, him, hshort, hv, hd, Envelope.eraseTimestamp]
            | ok u =>
              cases hp : c.predict with
              | error e =>
                  simp [predictRoute, hc, hj, him, hshort, hv, hd, hp,
                    Envelope.eraseTimestamp]
              | ok result =>
                  simp [predictRoute, hc, hj, him, hshort, hv, hd, hp,
                    Envelope.eraseTimestamp, buildPredictEnvelope]

/-- C8: the `/predict` handler is total — every outcome is an HTTP response
with status 200, 400, 503 or 500 — and every failure raised by the staging
write or by the classifier is caught and converted to an HTTP 500 envelope
with `success=false` and an error string naming the cause. -/
theorem pipeline_catches_all_failures
    (clApp : ClientApp) (c : Classifier)
    (b64decode : List Char → Except String (List Nat))
    (imgVerify : List Nat → Except String Unit)
    (decodeImage : List Char → String → Except String Unit)
    (req : PredictRequest) (img : List Char) (ts : String) :
    (let r := predictRoute clApp b64decode imgVerify decodeImage req ts
     r.resp.status = 200 ∨ r.resp.status = 400 ∨ r.resp.status = 503 ∨
     r.resp.status = 500) ∧
    (clApp.classifier = some c → req.is_json = true → req.image = some img →
     ¬(img = [] ∨ img.length < 100) →
     (validate_image b64decode imgVerify img).1 = true →
     ∀ e, decodeImage img clApp.filename = Except.error e →
       let r := predictRoute clApp b64decode imgVerify decodeImage req ts
       r.resp.status = 500 ∧ r.resp.body.success = some false ∧
       r.resp.body.error = some ("Internal server error: " ++ e)) ∧
    (clApp.classifier = some c → req.is_json = true → req.image = some img →
     ¬(img = [] ∨ img.length < 100) →
     (validate_image b64decode imgVerify img).1 = true →
     decodeImage img clApp.filename = Except.ok () →
     ∀ e, c.predict = Except.error e →
       let r := predictRoute clApp b64decode imgVerify decodeImage req ts
       r.resp.status = 500 ∧ r.resp.body.success = some false ∧
       r.resp.body.error = some ("Internal server error: " ++ e)) := by
  refine ⟨?_, ?_, ?_⟩
  · rcases predictRoute_shape clApp b64decode imgVerify decodeImage req ts with
      ⟨st, msg, hst, hresp⟩ | ⟨result, hresp⟩
    · rcases hst with rfl | rfl | rfl <;> simp [hresp]
    · simp [hresp]
  · intro hcl hj him hshort hv e hd
    simp [predictRoute, hcl, hj, him, hshort, hv, hd]
  · intro hcl hj him hshort hv hd e hp
    simp [predictRoute, hcl, hj, him, hshort, hv, hd, hp]

/-- An app whose classifier raises on `predict()`. -/
def errApp : ClientApp := ⟨"inputImage.jpg", some ⟨Except.error "CUDA out of memory"⟩⟩

/-- Witness for C8: a failing staging write and a raising classifier each
yield a 500 envelope at a concrete valid request. -/
theorem pipeline_catches_all_failures_witness :
    (let r := predictRoute loadedApp decOk verOk diFail ⟨true, some longImg⟩ "t"
     r.resp.status = 500 ∧ r.resp.body.success = some false ∧
     r.resp.body.error = some "Internal server error: No space left on device") ∧
    (let r := predictRoute errApp decOk verOk diOk ⟨true, some longImg⟩ "t"
     r.resp.status = 500 ∧ r.resp.body.success = some false ∧
     r.resp.body.error = some "Internal server error: CUDA out of memory") :=
  ⟨(pipeline_catches_all_failures loadedApp okClassifier decOk verOk diFail
      ⟨true, some longImg⟩ longImg "t").2.1 rfl rfl rfl (by decide) rfl
      "No space left on device" rfl,
   (pipeline_catches_all_failures errApp ⟨Except.error "CUDA out of memory"⟩ decOk verOk diOk
      ⟨true, some longImg⟩ longImg "t").2.2 rfl rfl rfl (by decide) rfl rfl
      "CUDA out of memory" rfl⟩

/-- C4: (i) when the stripped string's length modulo 4 is non-zero,
`validate_image`'s padding step appends exactly `4 - len % 4` trailing `'='`
characters, making the length a multiple of 4; (ii) the decoder is only
ever consulted on that padded string; (iii) consequently a string accepted
by `validate_image` with its `'='` padding present (length a multiple of 4,
no data-URL comma) is still accepted, with the same message, after
removing its 1-3 trailing `'='` characters. -/
theorem padding_correction
    (s t : List Char) (k : Nat) (m : String)
    (b64decode b64decodeB : List Char → Except String (List Nat))
    (imgVerify : List Nat → Except String Unit) :
    ((stripDataUrl s).length % 4 ≠ 0 →
       padB64 (stripDataUrl s) =
         stripDataUrl s ++ List.replicate (4 - (stripDataUrl s).length % 4) '=' ∧
       (padB64 (stripDataUrl s)).length % 4 = 0) ∧
    (b64decode (padB64 (stripDataUrl s)) = b64decodeB (padB64 (stripDataUrl s)) →
       validate_image b64decode imgVerify s = validate_image b64decodeB imgVerify s) ∧
    (',' ∉ t → 1 ≤ k → k ≤ 3 →
     (t ++ List.replicate k '=').length % 4 = 0 →
     validate_image b64decode imgVerify (t ++ List.replicate k '=') = (true, m) →
     validate_image b64decode imgVerify t = (true, m)) := by
  refine ⟨fun hs => ?_, fun hdec => ?_, fun hcomma hk1 hk3 hlen hacc => ?_⟩
  · have h4 : (stripDataUrl s).length % 4 < 4 := Nat.mod_lt _ (by omega)
    constructor
    · simp only [padB64]
      rw [if_pos (by omega)]
    · simp only [padB64]
      rw [if_pos (by omega)]
      simp only [List.length_append, List.length_replicate]
      omega
  · simp only [validate_image]
    rw [hdec]
  · have hncr : ',' ∉ List.replicate k '=' := by
      simp [List.mem_replicate]
    have hnc : ',' ∉ t ++ List.replicate k '=' := by
      simp only [List.mem_append]
      exact fun h => h.elim hcomma hncr
    have hstrip_s : stripDataUrl (t ++ List.replicate k '=') = t ++ List.replicate k '=' := by
      simp [stripDataUrl, hnc]
    have hstrip_t : stripDataUrl t = t := by
      simp [stripDataUrl, hcomma]
    have hlen2 : (t.length + k) % 4 = 0 := by
      simpa only [List.length_append, List.length_replicate] using hlen
    have hpad_s : padB64 (t ++ List.replicate k '=') = t ++ List.replicate k '=' := by
      simp only [padB64]
      rw [if_neg]
      simp only [List.length_append, List.length_replicate]
      omega
    have hpad_t : padB64 t = t ++ List.replicate k '=' := by
      simp only [padB64]
      rw [if_pos (by omega)]
      rw [show 4 - t.length % 4 = k from by omega]
    simp only [validate_image, hstrip_s, hpad_s] at hacc
    simp only [validate_image, hstrip_t, hpad_t]
    exact hacc

/-- Witness for C4 at a concrete 102-character payload: its stripped length
is 2 mod 4, the padding step appends two `'='`, and the 104-character padded
form accepted by `validate_image` is still accepted with the padding
stripped. -/
theorem padding_correction_witness :
    (padB64 (stripDataUrl (List.replicate 102 'A')) =
       stripDataUrl (List.replicate 102 'A') ++
         List.replicate (4 - (stripDataUrl (List.replicate 102 'A')).length % 4) '=' ∧
     (padB64 (stripDataUrl (List.replicate 102 'A'))).length % 4 = 0) ∧
    validate_image decOk verOk (List.replicate 102 'A') = (true, "Valid image") :=
  ⟨(padding_correction (List.replicate 102 'A') (List.replicate 102 'A') 2 "Valid image"
      decOk decOk verOk).1 (by decide),
   (padding_correction (List.replicate 102 'A') (List.replicate 102 'A') 2 "Valid image"
      decOk decOk verOk).2.2 (by decide) (by decide) (by decide) (by decide) (by decide)⟩
